import Mathlib

/-!
Verification of the AfterShip Go SDK's request/identifier layer against its
specification.  Go code is shallowly embedded: structs become structures,
the `TrackingIdentifier` interface becomes an inductive with one constructor
per implementing type, fallible functions return `Except`, and the HTTP
dispatcher (`makeRequest`, not part of the embedded files) is passed in as a
function argument while each operation also reports the list of HTTP calls it
issued, so "no network call" is a provable statement.
-/

namespace Aftership

/-! ### Go `net/url.PathEscape`

`url.PathEscape(s)` escapes `s` so it can be safely placed inside a URL path
segment (mode `encodePathSegment` of `shouldEscape` in net/url).  It works on
the UTF-8 bytes of the string. -/

/-- Upper-case hexadecimal digit for `n < 16`, as Go's `"0123456789ABCDEF"`. -/
def upperHexDigit (n : Nat) : Char :=
  if n < 10 then Char.ofNat (48 + n) else Char.ofNat (55 + n)

/-- Go `net/url.shouldEscape c encodePathSegment` for a byte `c`:
alphanumerics and `- _ . ~` are kept; of the RFC 3986 reserved set
`$ & + , / : ; = ? @`, the segment mode escapes exactly `/ ; , ?`;
every other byte is escaped. -/
def shouldEscape (c : Nat) : Bool :=
  if (97 ≤ c ∧ c ≤ 122) ∨ (65 ≤ c ∧ c ≤ 90) ∨ (48 ≤ c ∧ c ≤ 57) then false
  else if c = 45 ∨ c = 95 ∨ c = 46 ∨ c = 126 then false
  else if c = 36 ∨ c = 38 ∨ c = 43 ∨ c = 58 ∨ c = 61 ∨ c = 64 then false
  else true

/-- One byte of the escaped output: `%XX` when escaped, the byte itself
otherwise (the unescaped case only arises for ASCII bytes). -/
def escapeByte (b : Nat) : List Char :=
  if shouldEscape b then ['%', upperHexDigit (b / 16), upperHexDigit (b % 16)]
  else [Char.ofNat b]

/-- The UTF-8 bytes of a character (Go strings are byte sequences holding the
UTF-8 encoding of their text). -/
def utf8Bytes (c : Char) : List Nat :=
  let n := c.toNat
  if n < 128 then [n]
  else if n < 2048 then [192 + n / 64, 128 + n % 64]
  else if n < 65536 then [224 + n / 4096, 128 + (n / 64) % 64, 128 + n % 64]
  else [240 + n / 262144, 128 + (n / 4096) % 64, 128 + (n / 64) % 64, 128 + n % 64]

/-- Go `url.PathEscape`. -/
def pathEscape (s : String) : String :=
  String.mk (s.data.flatMap fun c => (utf8Bytes c).flatMap escapeByte)

/-! ### errors.go -/

/-- `errEmptyAPIKey` of errors.go. -/
def errEmptyAPIKey : String := "invalid credentials: API Key must not be empty"

/-- `errMissingTrackingNumber` of errors.go. -/
def errMissingTrackingNumber : String := "tracking number is empty and must be provided"

/-- `errMissingTrackingID` of errors.go. -/
def errMissingTrackingID : String := "tracking id is empty and must be provided"

/-- `errMissingSlugOrTrackingNumber` of errors.go. -/
def errMissingSlugOrTrackingNumber : String :=
  "slug or tracking number is empty, both of them must be provided"

/-- A `github.com/pkg/errors` error value: either a fresh error
(`errors.New msg`) or a wrap (`errors.Wrap cause msg`) that keeps its cause. -/
inductive GoError where
  | new (msg : String)
  | wrap (msg : String) (cause : GoError)
deriving DecidableEq, Repr

/-- `Error()`: a wrapped error prints as `msg ++ ": " ++ cause.Error()`. -/
def GoError.message : GoError → String
  | .new msg => msg
  | .wrap msg cause => msg ++ ": " ++ cause.message

/-- The innermost cause of an error chain (`errors.Cause`). -/
def GoError.rootCause : GoError → GoError
  | .new msg => .new msg
  | .wrap _ cause => cause.rootCause

/-- The error is one of the two missing-identifier validation errors of
errors.go (the spec's `MissingIdentifier` kind). -/
def GoError.isMissingIdentifier (e : GoError) : Bool :=
  e.rootCause = .new errMissingTrackingID ∨
    e.rootCause = .new errMissingSlugOrTrackingNumber

/-! ### Tracking identifiers (trackings.go of the v4 package) -/

/-- `TrackingID.URIPath`: empty id fails with `errMissingTrackingID`,
otherwise `/` + percent-escaped id. -/
def TrackingID.URIPath (id : String) : Except GoError String :=
  if id = "" then .error (.new errMissingTrackingID)
  else .ok ("/" ++ pathEscape id)

/-- `SlugTrackingNumber.URIPath`: either field empty fails with
`errMissingSlugOrTrackingNumber`, otherwise `/slug/number` with both parts
percent-escaped. -/
def SlugTrackingNumber.URIPath (slug trackingNumber : String) : Except GoError String :=
  if slug = "" ∨ trackingNumber = "" then .error (.new errMissingSlugOrTrackingNumber)
  else .ok ("/" ++ pathEscape slug ++ "/" ++ pathEscape trackingNumber)

/-- The `TrackingIdentifier` interface: one constructor per implementing type
(`TrackingID`, `SlugTrackingNumber`). -/
inductive TrackingIdentifier where
  | trackingID (id : String)
  | slugTrackingNumber (slug trackingNumber : String)
deriving DecidableEq, Repr

/-- Dynamic dispatch of `URIPath()` on the interface value. -/
def TrackingIdentifier.URIPath : TrackingIdentifier → Except GoError String
  | .trackingID id => TrackingID.URIPath id
  | .slugTrackingNumber slug n => SlugTrackingNumber.URIPath slug n

/-! ### Data model (trackings.go of the v4 package)

Go zero values become the structure's field defaults, so `{}` is the struct's
zero value `Tracking{}` etc.  `*time.Time` becomes `Option Int` (nil = `none`),
`[]string` a `List String`, `map[string]string` a `List (String × String)`. -/

/-- `LatestEstimatedDelivery` (field `Type` is spelled `Type'`: `Type` is a
Lean keyword). -/
structure LatestEstimatedDelivery where
  Type' : String := ""
  Source : String := ""
  Datetime : String := ""
  DatetimeMin : String := ""
  DatetimeMax : String := ""
deriving Repr

/-- `Checkpoint`. -/
structure Checkpoint where
  Slug : String := ""
  CreatedAt : Option Int := none
  CheckpointTime : String := ""
  City : String := ""
  Coordinates : List String := []
  CountryISO3 : String := ""
  CountryName : String := ""
  Message : String := ""
  State : String := ""
  Location : String := ""
  Tag : String := ""
  Subtag : String := ""
  SubtagMessage : String := ""
  Zip : String := ""
  RawTag : String := ""
deriving Repr

set_option linter.dupNamespace false in
/-- `EstimatedDeliveryDate` (`ConfidenceScore` is a Go `float64`). -/
structure EstimatedDeliveryDate where
  EstimatedDeliveryDate : String := ""
  ConfidenceScore : Float := 0.0
  EstimatedDeliveryDateMin : String := ""
  EstimatedDeliveryDateMax : String := ""

/-- `Tracking`, the resource returned by every tracking operation. -/
structure Tracking where
  ID : String := ""
  CreatedAt : Option Int := none
  UpdatedAt : Option Int := none
  LastUpdatedAt : Option Int := none
  TrackingNumber : String := ""
  Slug : String := ""
  Active : Bool := false
  Android : List String := []
  CustomFields : List (String × String) := []
  CustomerName : String := ""
  DeliveryTime : Int := 0
  DestinationCountryISO3 : String := ""
  DestinationRawLocation : String := ""
  CourierDestinationCountryISO3 : String := ""
  Emails : List String := []
  ExpectedDelivery : String := ""
  IOS : List String := []
  Note : String := ""
  OrderID : String := ""
  OrderIDPath : String := ""
  OrderDate : String := ""
  OriginCountryISO3 : String := ""
  ShipmentPackageCount : Int := 0
  ShipmentPickupDate : String := ""
  ShipmentDeliveryDate : String := ""
  ShipmentType : String := ""
  ShipmentWeight : Float := 0.0
  ShipmentWeightUnit : String := ""
  SignedBy : String := ""
  SMSes : List String := []
  Source : String := ""
  Tag : String := ""
  Subtag : String := ""
  SubtagMessage : String := ""
  Title : String := ""
  TrackedCount : Int := 0
  LastMileTrackingSupported : Bool := false
  Language : String := ""
  UniqueToken : String := ""
  Checkpoints : List Checkpoint := []
  SubscribedSMSes : List String := []
  SubscribedEmails : List String := []
  ReturnToSender : Bool := false
  OrderPromisedDeliveryDate : String := ""
  DeliveryType : String := ""
  PickupLocation : String := ""
  PickupNote : String := ""
  CourierTrackingLink : String := ""
  FirstAttemptedAt : String := ""
  CourierRedirectLink : String := ""
  TrackingAccountNumber : String := ""
  TrackingOriginCountry : String := ""
  TrackingDestinationCountry : String := ""
  TrackingKey : String := ""
  TrackingPostalCode : String := ""
  TrackingShipDate : String := ""
  TrackingState : String := ""
  OnTimeStatus : String := ""
  OnTimeDifference : Int := 0
  OrderTags : List String := []
  EstimatedDeliveryDate : EstimatedDeliveryDate := {}
  OrderNumber : String := ""
  LatestEstimatedDelivery : LatestEstimatedDelivery := {}

/-- The Go zero value `Tracking{}`. -/
def Tracking.zero : Tracking := {}

/-- `CreateTrackingParams`. -/
structure CreateTrackingParams where
  TrackingNumber : String := ""
  Slug : String := ""
  Title : String := ""
  OrderID : String := ""
  OrderIDPath : String := ""
  CustomFields : List (String × String) := []
  Language : String := ""
  OrderPromisedDeliveryDate : String := ""
  DeliveryType : String := ""
  PickupLocation : String := ""
  PickupNote : String := ""
  TrackingAccountNumber : String := ""
  TrackingOriginCountry : String := ""
  TrackingDestinationCountry : String := ""
  TrackingKey : String := ""
  TrackingPostalCode : String := ""
  TrackingShipDate : String := ""
  TrackingState : String := ""
  IOS : List String := []
  Android : List String := []
  Emails : List String := []
  SMSes : List String := []
  CustomerName : String := ""
  OriginCountryISO3 : String := ""
  DestinationCountryISO3 : String := ""
  Note : String := ""
  SlugGroup : String := ""
  OrderDate : String := ""
  OrderNumber : String := ""
deriving DecidableEq, Repr

/-- `GetTrackingParams`. -/
structure GetTrackingParams where
  Fields : String := ""
  Lang : String := ""
deriving DecidableEq, Repr

/-- `UpdateTrackingParams`. -/
structure UpdateTrackingParams where
  Emails : List String := []
  SMSes : List String := []
  Title : String := ""
  CustomerName : String := ""
  DestinationCountryISO3 : String := ""
  OrderID : String := ""
  OrderIDPath : String := ""
  OrderNumber : String := ""
  OrderDate : String := ""
  CustomFields : List (String × String) := []
  ShipmentType : String := ""
deriving DecidableEq, Repr

/-- `GetTrackingsParams` (the multi-tracking query struct; every field's `url`
tag carries `omitempty`). -/
structure GetTrackingsParams where
  Page : Int := 0
  Limit : Int := 0
  Keyword : String := ""
  TrackingNumbers : String := ""
  Slug : String := ""
  DeliveryTime : Int := 0
  Origin : String := ""
  Destination : String := ""
  Tag : String := ""
  CreatedAtMin : String := ""
  CreatedAtMax : String := ""
  UpdatedAtMin : String := ""
  UpdatedAtMax : String := ""
  Fields : String := ""
  Lang : String := ""
  LastUpdatedAt : String := ""
  ReturnToSender : String := ""
  CourierDestinationCountryIso3 : String := ""
deriving DecidableEq, Repr

/-- `PagedTrackings`, the data part of the multi-tracking response. -/
structure PagedTrackings where
  Limit : Int := 0
  Count : Int := 0
  Page : Int := 0
  Trackings : List Tracking := []

/-- The Go zero value `PagedTrackings{}`. -/
def PagedTrackings.zero : PagedTrackings := {}

/-- `trackingWrapper`, the single-tracking response envelope (key `tracking`). -/
structure trackingWrapper where
  Tracking : Tracking := {}

/-- `TrackingCompletedStatus` (a Go string type). -/
abbrev TrackingCompletedStatus := String

/-- `TrackingCompletedStatusDelivered`. -/
def TrackingCompletedStatusDelivered : TrackingCompletedStatus := "DELIVERED"

/-- `TrackingCompletedStatusLost`. -/
def TrackingCompletedStatusLost : TrackingCompletedStatus := "LOST"

/-- `TrackingCompletedStatusReturnedToSender`. -/
def TrackingCompletedStatusReturnedToSender : TrackingCompletedStatus := "RETURNED_TO_SENDER"

/-- `createTrackingRequest`, the create-tracking body envelope (key `tracking`). -/
structure createTrackingRequest where
  Tracking : CreateTrackingParams
deriving DecidableEq, Repr

/-- `updateTrackingRequest`, the update-tracking body envelope (key `tracking`). -/
structure updateTrackingRequest where
  Tracking : UpdateTrackingParams
deriving DecidableEq, Repr

/-- `markAsCompletedRequest` (`{"reason": ...}`). -/
structure markAsCompletedRequest where
  Reason : String
deriving DecidableEq, Repr

/-- Modelled from the spec: the v2 notification `Data` payload is the contact
information (emails, smses) of a tracking's notification subscriptions; its
code (v2/notification/data.go) is not among the embedded files. -/
structure NotificationData where
  Emails : List String := []
  SMSes : List String := []
deriving DecidableEq, Repr

/-- The Go zero value `Data{}`. -/
def NotificationData.zero : NotificationData := {}

/-- Modelled from the spec: the v2 notification `Envelope` wraps the `Data`
payload under the `notification` key; its code is not among the embedded
files. -/
structure NotificationEnvelope where
  Data : NotificationData := {}
deriving DecidableEq, Repr

/-! ### The dispatcher boundary

`makeRequest` (the Request Dispatcher) is not among the embedded files; each
operation below therefore takes the dispatcher as a function argument and
additionally returns the list of HTTP calls it handed to that dispatcher, so
"issues no HTTP request" is the statement that this list is empty. -/

/-- The query-parameter argument an operation hands to the dispatcher
(Go passes the typed struct; serialization happens inside the dispatcher). -/
inductive QueryParams where
  | noQuery
  | ofGetTracking (p : GetTrackingParams)
  | ofGetTrackings (p : GetTrackingsParams)

/-- The body argument an operation hands to the dispatcher. -/
inductive RequestBody where
  | noBody
  | ofCreateTracking (r : createTrackingRequest)
  | ofUpdateTracking (r : updateTrackingRequest)
  | ofMarkAsCompleted (r : markAsCompletedRequest)
  | ofNotification (d : NotificationData)

/-- One HTTP call as handed to the dispatcher: method, path, query, body. -/
structure HTTPCall where
  method : String
  path : String
  queryParams : QueryParams
  body : RequestBody

/-- A dispatcher decoding responses into a `trackingWrapper`: it fills the
wrapper and reports an optional error, as `makeRequest` does through its
result pointer and return value. -/
abbrev TrackingDispatcher := HTTPCall → trackingWrapper × Option GoError

/-! ### Tracking operations (trackings.go of the v4 package) -/

/-- `CreateTracking`: rejects an empty tracking number before any call,
otherwise POSTs the enveloped params to `/trackings`. -/
def createTracking (dispatch : TrackingDispatcher) (params : CreateTrackingParams) :
    (Tracking × Option GoError) × List HTTPCall :=
  if params.TrackingNumber = "" then
    ((Tracking.zero, some (.new errMissingTrackingNumber)), [])
  else
    let call : HTTPCall :=
      ⟨"POST", "/trackings", .noQuery, .ofCreateTracking ⟨params⟩⟩
    let (w, err) := dispatch call
    ((w.Tracking, err), [call])

/-- `DeleteTracking`. -/
def deleteTracking (dispatch : TrackingDispatcher) (identifier : TrackingIdentifier) :
    (Tracking × Option GoError) × List HTTPCall :=
  match identifier.URIPath with
  | .error err => ((Tracking.zero, some (.wrap "error deleting tracking" err)), [])
  | .ok uriPath =>
    let call : HTTPCall := ⟨"DELETE", "/trackings" ++ uriPath, .noQuery, .noBody⟩
    let (w, err) := dispatch call
    ((w.Tracking, err), [call])

/-- `GetTrackings` (multi-tracking; its dispatcher decodes `PagedTrackings`). -/
def getTrackings (dispatch : HTTPCall → PagedTrackings × Option GoError)
    (params : GetTrackingsParams) :
    (PagedTrackings × Option GoError) × List HTTPCall :=
  let call : HTTPCall := ⟨"GET", "/trackings", .ofGetTrackings params, .noBody⟩
  let (paged, err) := dispatch call
  ((paged, err), [call])

/-- `GetTracking`. -/
def getTracking (dispatch : TrackingDispatcher) (identifier : TrackingIdentifier)
    (params : GetTrackingParams) :
    (Tracking × Option GoError) × List HTTPCall :=
  match identifier.URIPath with
  | .error err => ((Tracking.zero, some (.wrap "error getting tracking" err)), [])
  | .ok uriPath =>
    let call : HTTPCall :=
      ⟨"GET", "/trackings" ++ uriPath, .ofGetTracking params, .noBody⟩
    let (w, err) := dispatch call
    ((w.Tracking, err), [call])

/-- `UpdateTracking`. -/
def updateTracking (dispatch : TrackingDispatcher) (identifier : TrackingIdentifier)
    (params : UpdateTrackingParams) :
    (Tracking × Option GoError) × List HTTPCall :=
  match identifier.URIPath with
  | .error err => ((Tracking.zero, some (.wrap "error updating tracking" err)), [])
  | .ok uriPath =>
    let call : HTTPCall :=
      ⟨"PUT", "/trackings" ++ uriPath, .noQuery, .ofUpdateTracking ⟨params⟩⟩
    let (w, err) := dispatch call
    ((w.Tracking, err), [call])

/-- `RetrackTracking`. -/
def retrackTracking (dispatch : TrackingDispatcher) (identifier : TrackingIdentifier) :
    (Tracking × Option GoError) × List HTTPCall :=
  match identifier.URIPath with
  | .error err => ((Tracking.zero, some (.wrap "error retracking" err)), [])
  | .ok uriPath =>
    let call : HTTPCall :=
      ⟨"POST", "/trackings" ++ uriPath ++ "/retrack", .noQuery, .noBody⟩
    let (w, err) := dispatch call
    ((w.Tracking, err), [call])

/-- `MarkTrackingAsCompleted`. -/
def markTrackingAsCompleted (dispatch : TrackingDispatcher)
    (identifier : TrackingIdentifier) (status : TrackingCompletedStatus) :
    (Tracking × Option GoError) × List HTTPCall :=
  match identifier.URIPath with
  | .error err =>
    ((Tracking.zero, some (.wrap "error marking tracking as completed" err)), [])
  | .ok uriPath =>
    let call : HTTPCall :=
      ⟨"POST", "/trackings" ++ uriPath ++ "/mark-as-completed", .noQuery,
        .ofMarkAsCompleted ⟨status⟩⟩
    let (w, err) := dispatch call
    ((w.Tracking, err), [call])

/-! ### v2 notification endpoint (v2/notification/endpoint.go) -/

/-- Modelled from the spec: the v2 `tracking.SingleTrackingParam` carries an
opaque ID or a slug + tracking-number pair (its code, v2/tracking, is not
among the embedded files; the example program constructs it with exactly
these fields). -/
structure SingleTrackingParam where
  ID : String := ""
  Slug : String := ""
  TrackingNumber : String := ""
deriving DecidableEq, Repr

/-- Modelled from the spec: the Resource Identifier denoted by a
`SingleTrackingParam` — `ByID` when `ID` is set, otherwise
`BySlugAndNumber`. -/
def SingleTrackingParam.identifier (p : SingleTrackingParam) : TrackingIdentifier :=
  if p.ID ≠ "" then .trackingID p.ID
  else .slugTrackingNumber p.Slug p.TrackingNumber

/-- Modelled from the spec: `tracking.BuildTrackingURL` (v2/tracking, not
among the embedded files) builds `/trackings{identifier}[/path][/subPath]`
where `{identifier}` is produced by the Identifier Resolver (spec §4.1, §6)
and fails when a required identifier field is blank. -/
def BuildTrackingURL (param : SingleTrackingParam) (path subPath : String) :
    Except GoError String :=
  match param.identifier.URIPath with
  | .error e => .error e
  | .ok seg =>
    .ok ("/trackings" ++ seg ++ (if path = "" then "" else "/" ++ path) ++
      (if subPath = "" then "" else "/" ++ subPath))

/-- `AddNotification` of v2/notification/endpoint.go: POSTs the data to the
tracking's `/notifications/add` path; on URL-build failure or request failure
returns `Data{}` with the error. -/
def AddNotification (dispatch : HTTPCall → NotificationEnvelope × Option GoError)
    (param : SingleTrackingParam) (data : NotificationData) :
    (NotificationData × Option GoError) × List HTTPCall :=
  match BuildTrackingURL param "notifications" "add" with
  | .error err => ((NotificationData.zero, some err), [])
  | .ok url =>
    let call : HTTPCall := ⟨"POST", url, .noQuery, .ofNotification data⟩
    let (envelope, err) := dispatch call
    match err with
    | some e => ((NotificationData.zero, some e), [call])
    | none => ((envelope.Data, none), [call])

/-! ### API error taxonomy (errors.go + spec §4.4)

`APIError` and `TooManyRequestsError` are errors.go; the `RateLimit` struct
and the classifier that builds them from a response are not among the
embedded files and are modelled from the spec. -/

/-- Modelled from the spec: the Rate Limit State — `limit`, `remaining`,
`resetAt` (a timestamp) extracted from response headers on every call
(spec §3); the `RateLimit` struct's own file is not among the embedded
files. -/
structure RateLimit where
  Limit : Int := 0
  Remaining : Int := 0
  Reset : Int := 0
deriving DecidableEq, Repr

/-- `APIError` of errors.go: `{code, type, message, path}` from the API error
body plus the original HTTP status (`Type` is spelled `Type'`: `Type` is a
Lean keyword). -/
structure APIError where
  Code : Int := 0
  Type' : String := ""
  Message : String := ""
  Path : String := ""
  HTTPStatusCode : Int := 0
deriving DecidableEq, Repr

/-- `TooManyRequestsError` of errors.go: an `APIError` carrying the Rate
Limit State. -/
structure TooManyRequestsError where
  APIError : APIError
  RateLimit : RateLimit
deriving DecidableEq, Repr

/-- The documented API error body `{code, type, message, path}` as decoded
from a non-2xx response. -/
structure ErrorBody where
  code : Int := 0
  type' : String := ""
  message : String := ""
  path : String := ""
deriving DecidableEq, Repr

/-- The closed error taxonomy of spec §4.4 for non-2xx responses; `generic`
is the tie-break `APIError` for a body that fails to parse (and any status
outside the 4xx/5xx ranges). -/
inductive ClassifiedError where
  | validation (e : APIError)
  | authentication (e : APIError)
  | notFound (e : APIError)
  | rateLimited (e : TooManyRequestsError)
  | server (e : APIError)
  | generic (e : APIError)
deriving DecidableEq, Repr

/-- The kind (taxonomy member) of a classified error, without its payload. -/
inductive ErrKind where
  | validation | authentication | notFound | rateLimited | server | generic
deriving DecidableEq, Repr

/-- The kind of a classified error. -/
def ClassifiedError.kind : ClassifiedError → ErrKind
  | .validation _ => .validation
  | .authentication _ => .authentication
  | .notFound _ => .notFound
  | .rateLimited _ => .rateLimited
  | .server _ => .server
  | .generic _ => .generic

/-- Modelled from the spec: the Error Classifier (spec §4.4; its code is not
among the embedded files).  Given the HTTP status, the decoded error body
(`none` when the body failed to parse as the documented schema), the raw body
text, and the Rate Limit State of the response, it produces one error of the
closed taxonomy: 429 → `RateLimitedError` carrying the Rate Limit State,
401/403 → `AuthenticationError`, 404 → `NotFoundError`, other 4xx →
`ValidationError`, 5xx → `ServerError`; an unparseable body degrades to a
generic `APIError` carrying only the status and raw body text. -/
def classify (status : Int) (body : Option ErrorBody) (rawBody : String)
    (rl : RateLimit) : ClassifiedError :=
  match body with
  | none =>
    .generic { Message := rawBody, HTTPStatusCode := status }
  | some b =>
    let e : APIError :=
      { Code := b.code, Type' := b.type', Message := b.message, Path := b.path,
        HTTPStatusCode := status }
    if status = 429 then .rateLimited ⟨e, rl⟩
    else if status = 401 ∨ status = 403 then .authentication e
    else if status = 404 then .notFound e
    else if 400 ≤ status ∧ status < 500 then .validation e
    else if 500 ≤ status then .server e
    else .generic e

/-! ### Retry/Backoff Policy (spec §4.5)

The rate-limit-aware dispatch engine is not among the embedded files; it is
modelled from spec §4.5.  The caller's context and the clock are explicit. -/

/-- A caller's cancellation/deadline context: canceled flag and optional
deadline timestamp. -/
structure Ctx where
  canceled : Bool := false
  deadline : Option Int := none
deriving DecidableEq, Repr

/-- A call's outcome as seen by the engine: a decoded result or a classified
API error or a transport-level failure (never retried). -/
inductive CallOutcome (α : Type) where
  | ok (a : α)
  | apiError (e : ClassifiedError)
  | transportError (msg : String)

/-- The outcome is a `RateLimitedError`. -/
def CallOutcome.isRateLimited : CallOutcome α → Bool
  | .apiError (.rateLimited _) => true
  | _ => false

/-- Modelled from the spec: the backoff wait the Retry Policy computes on a
`RateLimitedError` — the Rate Limit State's reset time minus the current
time, floored at zero (spec §4.5). -/
def waitDuration (now resetAt : Int) : Int :=
  max 0 (resetAt - now)

/-- Modelled from the spec: the wait is aborted when the caller's context is
already canceled or its deadline would be exceeded before the wait of `w`
completes (spec §4.5). -/
def ctxBlocksWait (ctx : Ctx) (now w : Int) : Bool :=
  ctx.canceled ||
    (match ctx.deadline with
     | some d => decide (d < now + w)
     | none => false)

/-- Modelled from the spec: the rate-limit-aware engine around the Dispatcher
(spec §4.5).  `transport` is the stub transport giving the outcome of each
underlying HTTP attempt.  Returns the final outcome, the number of attempts
performed, and the duration actually waited.  A first `RateLimitedError`
leads to at most one retry after waiting; a blocked wait returns the original
error immediately; every other outcome is returned as is with no retry. -/
def executeWithRetry (ctx : Ctx) (now : Int) (transport : Nat → CallOutcome α) :
    CallOutcome α × Nat × Int :=
  match transport 0 with
  | .apiError (.rateLimited e) =>
    let w := waitDuration now e.RateLimit.Reset
    if ctxBlocksWait ctx now w then (.apiError (.rateLimited e), 1, 0)
    else (transport 1, 2, w)
  | r => (r, 1, 0)

/-! ### Query parameter serialization (spec §4.3 step 2, §6)

The serializer (inside the Dispatcher, driven by the structs' `url:"...,
omitempty"` tags) is not among the embedded files and is modelled from the
spec: each field is emitted under its `url` tag name unless it holds its
zero value. -/

/-- A query field value: a Go int or string. -/
inductive QVal where
  | int (i : Int)
  | str (s : String)
deriving DecidableEq, Repr

/-- The `omitempty` test: a zero int or an empty string is omitted. -/
def QVal.isZero : QVal → Bool
  | .int i => i = 0
  | .str s => s = ""

/-- The rendered text of a query field value. -/
def QVal.render : QVal → String
  | .int i => toString i
  | .str s => s

/-- The fields of a `GetTrackingsParams` in declaration order, each under its
`url` tag name. -/
def GetTrackingsParams.urlFields (p : GetTrackingsParams) : List (String × QVal) :=
  [("page", .int p.Page),
   ("limit", .int p.Limit),
   ("keyword", .str p.Keyword),
   ("tracking_numbers", .str p.TrackingNumbers),
   ("slug", .str p.Slug),
   ("delivery_time", .int p.DeliveryTime),
   ("origin", .str p.Origin),
   ("destination", .str p.Destination),
   ("tag", .str p.Tag),
   ("created_at_min", .str p.CreatedAtMin),
   ("created_at_max", .str p.CreatedAtMax),
   ("updated_at_min", .str p.UpdatedAtMin),
   ("updated_at_max", .str p.UpdatedAtMax),
   ("fields", .str p.Fields),
   ("lang", .str p.Lang),
   ("last_updated_at", .str p.LastUpdatedAt),
   ("return_to_sender", .str p.ReturnToSender),
   ("courier_destination_country_iso3", .str p.CourierDestinationCountryIso3)]

/-- Modelled from the spec: sparse serialization — the key/value pairs that
reach the query string are exactly the fields not holding their zero value
(spec §4.3 step 2, §6). -/
def GetTrackingsParams.queryPairs (p : GetTrackingsParams) : List (String × QVal) :=
  p.urlFields.filter fun kv => !kv.2.isZero

/-- Modelled from the spec: the serialized query string, `k=v` pairs joined
with `&`. -/
def GetTrackingsParams.queryString (p : GetTrackingsParams) : String :=
  String.intercalate "&" (p.queryPairs.map fun kv => kv.1 ++ "=" ++ kv.2.render)

/-! ### Envelope Codec (spec §4.2)

JSON (de)serialization is Go's encoding/json, not among the embedded files;
the envelope layer is modelled from the spec: encode wraps the payload's JSON
under the single resource key, decode extracts the value at that key. -/

/-- A JSON value (objects as association lists). -/
inductive Json where
  | null
  | boolean (b : Bool)
  | num (n : Int)
  | str (s : String)
  | arr (elems : List Json)
  | obj (members : List (String × Json))

/-- Modelled from the spec: Envelope Codec encode — `{key: payload}`
(spec §4.2), with `enc` the payload type's JSON encoding. -/
def encodeEnvelope (key : String) (enc : α → Json) (payload : α) : Json :=
  .obj [(key, enc payload)]

/-- Modelled from the spec: Envelope Codec decode — extract the value at
`key` and deserialize it into the target type with `dec`; a missing key or a
non-object is a decode failure (spec §4.2). -/
def decodeEnvelope (key : String) (dec : Json → Option α) : Json → Option α
  | .obj members =>
    match members.lookup key with
    | some v => dec v
    | none => none
  | _ => none

/-- The JSON encoding of `markAsCompletedRequest` (`{"reason": ...}`), used
as a concrete payload codec. -/
def markAsCompletedRequest.toJson (r : markAsCompletedRequest) : Json :=
  .obj [("reason", .str r.Reason)]

/-- The JSON decoding of `markAsCompletedRequest`. -/
def markAsCompletedRequest.fromJson : Json → Option markAsCompletedRequest
  | .obj members =>
    match members.lookup "reason" with
    | some (.str s) => some ⟨s⟩
    | _ => none
  | _ => none

/-! ## Helper lemmas -/

set_option maxRecDepth 4096 in
/-- An escaped byte never contains a literal `/`: when the byte is escaped the
output is `%` plus two upper-hex digits, and `/` itself (byte 47) is always
escaped in path-segment mode. -/
theorem escapeByte_no_slash : ∀ b < 256, '/' ∉ escapeByte b := by decide

/-- Every character's scalar value is below `0x110000`. -/
theorem char_toNat_lt (c : Char) : c.toNat < 1114112 := by
  rcases c.valid with h | ⟨_, h⟩
  · exact lt_trans h (by norm_num)
  · exact h

/-- UTF-8 encoding produces bytes. -/
theorem utf8Bytes_lt (c : Char) : ∀ b ∈ utf8Bytes c, b < 256 := by
  have hc := char_toNat_lt c
  intro b hb
  simp only [utf8Bytes] at hb
  split at hb <;> [skip; (split at hb <;> [skip; (split at hb)])] <;>
    simp at hb <;> omega

/-- `url.PathEscape` output never contains a literal `/`, so an escaped slug
or tracking number stays a single path segment. -/
theorem pathEscape_no_slash (s : String) : '/' ∉ (pathEscape s).data := by
  intro hmem
  simp [pathEscape, List.mem_flatMap] at hmem
  obtain ⟨c, _, b, hb, hslash⟩ := hmem
  exact escapeByte_no_slash b (utf8Bytes_lt c b hb) hslash

/-- The identifier has a required field left blank: an empty `TrackingID`, or
a `SlugTrackingNumber` with empty slug or empty tracking number. -/
def TrackingIdentifier.hasBlankField : TrackingIdentifier → Bool
  | .trackingID id => id == ""
  | .slugTrackingNumber slug n => slug == "" || n == ""

/-! ## The claims -/

/-- Claim C1: resolving an identifier with a blank required field fails with
the missing-identifier validation error, and each enclosing operation
(delete, get, update, retrack, mark-as-completed) returns that error —
wrapped with the operation's context message, its cause intact — with the
zero `Tracking` and an empty list of issued HTTP calls, for every
dispatcher. -/
theorem C1_missing_identifier_fail_fast (identifier : TrackingIdentifier)
    (h : identifier.hasBlankField = true) :
    ∃ e, identifier.URIPath = .error e ∧ e.isMissingIdentifier = true ∧
      ∀ dispatch gparams uparams status,
        deleteTracking dispatch identifier =
          ((Tracking.zero, some (.wrap "error deleting tracking" e)), []) ∧
        getTracking dispatch identifier gparams =
          ((Tracking.zero, some (.wrap "error getting tracking" e)), []) ∧
        updateTracking dispatch identifier uparams =
          ((Tracking.zero, some (.wrap "error updating tracking" e)), []) ∧
        retrackTracking dispatch identifier =
          ((Tracking.zero, some (.wrap "error retracking" e)), []) ∧
        markTrackingAsCompleted dispatch identifier status =
          ((Tracking.zero, some (.wrap "error marking tracking as completed" e)), []) := by
  cases identifier with
  | trackingID id =>
    simp [TrackingIdentifier.hasBlankField] at h
    subst h
    refine ⟨.new errMissingTrackingID, ?_, by decide, ?_⟩
    · simp [TrackingIdentifier.URIPath, TrackingID.URIPath]
    · intro dispatch gparams uparams status
      refine ⟨?_, ?_, ?_, ?_, ?_⟩ <;>
        simp [deleteTracking, getTracking, updateTracking, retrackTracking,
          markTrackingAsCompleted, TrackingIdentifier.URIPath, TrackingID.URIPath]
  | slugTrackingNumber slug n =>
    simp [TrackingIdentifier.hasBlankField] at h
    refine ⟨.new errMissingSlugOrTrackingNumber, ?_, by decide, ?_⟩
    · simp [TrackingIdentifier.URIPath, SlugTrackingNumber.URIPath, h]
    · intro dispatch gparams uparams status
      refine ⟨?_, ?_, ?_, ?_, ?_⟩ <;>
        simp [deleteTracking, getTracking, updateTracking, retrackTracking,
          markTrackingAsCompleted, TrackingIdentifier.URIPath,
          SlugTrackingNumber.URIPath, h]

/-- Concrete witness for C1: the empty `TrackingID`. -/
theorem C1_missing_identifier_fail_fast_witness :
    ∃ e, (TrackingIdentifier.trackingID "").URIPath = .error e ∧
      e.isMissingIdentifier = true ∧
      ∀ dispatch gparams uparams status,
        deleteTracking dispatch (.trackingID "") =
          ((Tracking.zero, some (.wrap "error deleting tracking" e)), []) ∧
        getTracking dispatch (.trackingID "") gparams =
          ((Tracking.zero, some (.wrap "error getting tracking" e)), []) ∧
        updateTracking dispatch (.trackingID "") uparams =
          ((Tracking.zero, some (.wrap "error updating tracking" e)), []) ∧
        retrackTracking dispatch (.trackingID "") =
          ((Tracking.zero, some (.wrap "error retracking" e)), []) ∧
        markTrackingAsCompleted dispatch (.trackingID "") status =
          ((Tracking.zero, some (.wrap "error marking tracking as completed" e)), []) :=
  C1_missing_identifier_fail_fast (.trackingID "") rfl

/-- Claim C2: the engine performs at most two underlying attempts; a first
outcome that is not a `RateLimitedError` is returned as is after exactly one
attempt (no other error kind triggers a retry); and when both attempts are
rate-limited, the second `RateLimitedError` is returned after exactly two
attempts. -/
theorem C2_single_retry_bound {α : Type} (ctx : Ctx) (now : Int)
    (transport : Nat → CallOutcome α) :
    (executeWithRetry ctx now transport).2.1 ≤ 2 ∧
    ((transport 0).isRateLimited = false →
      executeWithRetry ctx now transport = (transport 0, 1, 0)) ∧
    (∀ e e', transport 0 = .apiError (.rateLimited e) →
      ctxBlocksWait ctx now (waitDuration now e.RateLimit.Reset) = false →
      transport 1 = .apiError (.rateLimited e') →
      executeWithRetry ctx now transport =
        (.apiError (.rateLimited e'), 2, waitDuration now e.RateLimit.Reset)) := by
  refine ⟨?_, ?_, ?_⟩
  · unfold executeWithRetry
    rcases h : transport 0 with a | ce | m
    · simp
    · cases ce <;> simp
      split <;> simp
    · simp
  · intro hrl
    unfold executeWithRetry
    rcases h : transport 0 with a | ce | m
    · simp
    · cases ce <;> simp_all [CallOutcome.isRateLimited]
    · simp
  · intro e e' h0 hblock h1
    unfold executeWithRetry
    rw [h0]
    simp [hblock, h1]

/-- Claim C3: on a rate-limited first attempt, the engine's wait equals the
Rate Limit State's reset time minus the current time, floored at zero; a
canceled context or a deadline the wait would overrun aborts the wait and
returns the original `RateLimitedError` after a single attempt with zero
wait; and when the wait proceeds, finishing never exceeds the deadline. -/
theorem C3_backoff_wait_and_cancel {α : Type} (ctx : Ctx) (now : Int)
    (transport : Nat → CallOutcome α) (e : TooManyRequestsError)
    (h : transport 0 = .apiError (.rateLimited e)) :
    (ctxBlocksWait ctx now (waitDuration now e.RateLimit.Reset) = true →
      executeWithRetry ctx now transport = (.apiError (.rateLimited e), 1, 0)) ∧
    (ctxBlocksWait ctx now (waitDuration now e.RateLimit.Reset) = false →
      (executeWithRetry ctx now transport).2.2 = max 0 (e.RateLimit.Reset - now) ∧
      ctx.canceled = false ∧
      ∀ d, ctx.deadline = some d →
        now + waitDuration now e.RateLimit.Reset ≤ d) := by
  constructor
  · intro hb
    unfold executeWithRetry
    rw [h]
    simp [hb]
  · intro hb
    refine ⟨?_, ?_, ?_⟩
    · unfold executeWithRetry
      rw [h]
      simp only [hb, if_false, Bool.false_eq_true]
      simp [waitDuration]
    · simp [ctxBlocksWait] at hb
      exact hb.1
    · intro d hd
      simp [ctxBlocksWait, hd] at hb
      omega

/-- Concrete witness for C3: reset 50 seconds after now, deadline at 100. -/
theorem C3_backoff_wait_and_cancel_witness :
    (ctxBlocksWait ⟨false, some 100⟩ 0
        (waitDuration 0 (⟨⟨0, "", "", "", 429⟩, ⟨10, 0, 50⟩⟩ :
          TooManyRequestsError).RateLimit.Reset) = true →
      executeWithRetry ⟨false, some 100⟩ 0
          (fun _ => (.apiError (.rateLimited ⟨⟨0, "", "", "", 429⟩, ⟨10, 0, 50⟩⟩) :
            CallOutcome Unit)) =
        (.apiError (.rateLimited ⟨⟨0, "", "", "", 429⟩, ⟨10, 0, 50⟩⟩), 1, 0)) ∧
    (ctxBlocksWait ⟨false, some 100⟩ 0
        (waitDuration 0 (⟨⟨0, "", "", "", 429⟩, ⟨10, 0, 50⟩⟩ :
          TooManyRequestsError).RateLimit.Reset) = false →
      (executeWithRetry ⟨false, some 100⟩ 0
          (fun _ => (.apiError (.rateLimited ⟨⟨0, "", "", "", 429⟩, ⟨10, 0, 50⟩⟩) :
            CallOutcome Unit))).2.2 =
        max 0 (((⟨⟨0, "", "", "", 429⟩, ⟨10, 0, 50⟩⟩ :
          TooManyRequestsError).RateLimit.Reset) - 0) ∧
      (⟨false, some 100⟩ : Ctx).canceled = false ∧
      ∀ d, (⟨false, some 100⟩ : Ctx).deadline = some d →
        0 + waitDuration 0 ((⟨⟨0, "", "", "", 429⟩, ⟨10, 0, 50⟩⟩ :
          TooManyRequestsError).RateLimit.Reset) ≤ d) :=
  C3_backoff_wait_and_cancel ⟨false, some 100⟩ 0 _ ⟨⟨0, "", "", "", 429⟩, ⟨10, 0, 50⟩⟩ rfl

/-- Claim C4: for responses whose body parses as the documented error schema,
the classified kind is a function of the HTTP status alone; a 404 with body
code 4004 yields `NotFoundError` carrying code 4004 and status 404; a 429
yields `RateLimitedError` carrying the body's fields, status 429 and the
response's Rate Limit State. -/
theorem C4_error_classifier_taxonomy :
    (∀ s b₁ b₂ r₁ r₂ rl₁ rl₂,
      (classify s (some b₁) r₁ rl₁).kind = (classify s (some b₂) r₂ rl₂).kind) ∧
    (∀ rl, classify 404 (some { code := 4004, message := "not found" }) "" rl =
      .notFound { Code := 4004, Message := "not found", HTTPStatusCode := 404 }) ∧
    (∀ b raw rl, classify 429 (some b) raw rl =
      .rateLimited ⟨⟨b.code, b.type', b.message, b.path, 429⟩, rl⟩) := by
  refine ⟨?_, ?_, ?_⟩
  · intro s b₁ b₂ r₁ r₂ rl₁ rl₂
    simp only [classify]
    split_ifs <;> rfl
  · intro rl
    rfl
  · intro b raw rl
    simp [classify]

/-- Claim C5: `TrackingID "abc123"` resolves to `/abc123` and
`SlugTrackingNumber "dhl" "RA123"` to `/dhl/RA123`; in general every
non-empty id resolves to `/` + its escaped text with exactly one `/`, and
every non-empty slug/number pair to a path with exactly two `/` — so a `/`
inside a slug or number is escaped and never adds a path segment. -/
theorem C5_identifier_path_resolution :
    (TrackingID.URIPath "abc123" = .ok "/abc123") ∧
    (SlugTrackingNumber.URIPath "dhl" "RA123" = .ok "/dhl/RA123") ∧
    (∀ id, id ≠ "" →
      TrackingID.URIPath id = .ok ("/" ++ pathEscape id) ∧
      ("/" ++ pathEscape id).data.count '/' = 1) ∧
    (∀ slug n, slug ≠ "" → n ≠ "" →
      SlugTrackingNumber.URIPath slug n =
        .ok ("/" ++ pathEscape slug ++ "/" ++ pathEscape n) ∧
      ("/" ++ pathEscape slug ++ "/" ++ pathEscape n).data.count '/' = 2) := by
  refine ⟨rfl, rfl, ?_, ?_⟩
  · intro id hid
    refine ⟨by simp [TrackingID.URIPath, hid], ?_⟩
    simp [String.data_append, List.count_cons,
      List.count_eq_zero.mpr (pathEscape_no_slash id)]
  · intro slug n hs hn
    refine ⟨by simp [SlugTrackingNumber.URIPath, hs, hn], ?_⟩
    simp [String.data_append, List.count_append, List.count_cons,
      List.count_eq_zero.mpr (pathEscape_no_slash slug),
      List.count_eq_zero.mpr (pathEscape_no_slash n)]

/-- Claim C6: a `GetTrackingsParams` with only `Page = 2` set serializes to
exactly `page=2`, and in general every key/value pair that reaches the query
string comes from a field not holding its zero value. -/
theorem C6_sparse_query_serialization :
    GetTrackingsParams.queryString { Page := 2 } = "page=2" ∧
    ∀ p kv, kv ∈ GetTrackingsParams.queryPairs p → kv.2.isZero = false := by
  constructor
  · rfl
  · intro p kv hkv
    simp [GetTrackingsParams.queryPairs, List.mem_filter] at hkv
    exact hkv.2

/-- Claim C7: for every payload, envelope key and payload codec that inverts
its own encoding, wrapping the payload under the key and unwrapping with the
same key returns the original payload. -/
theorem C7_envelope_roundtrip {α : Type} (key : String) (enc : α → Json)
    (dec : Json → Option α) (payload : α) (h : ∀ a, dec (enc a) = some a) :
    decodeEnvelope key dec (encodeEnvelope key enc payload) = some payload := by
  simp [encodeEnvelope, decodeEnvelope, List.lookup]
  exact h payload

/-- Concrete witness for C7: a `markAsCompletedRequest` payload under the
`tracking` key. -/
theorem C7_envelope_roundtrip_witness :
    decodeEnvelope "tracking" markAsCompletedRequest.fromJson
      (encodeEnvelope "tracking" markAsCompletedRequest.toJson ⟨"DELIVERED"⟩) =
      some ⟨"DELIVERED"⟩ :=
  C7_envelope_roundtrip "tracking" _ _ _ (fun r => by
    cases r
    simp [markAsCompletedRequest.toJson, markAsCompletedRequest.fromJson, List.lookup])

/-- Claim C8: whenever the identifier resolves to segment `p`, the retrack
operation issues exactly one POST to `/trackings` + `p` + `/retrack`, the
mark-as-completed operation exactly one POST to `/trackings` + `p` +
`/mark-as-completed`, and `AddNotification` exactly one POST to
`/trackings` + `p` + `/notifications/add`. -/
theorem C8_fixed_path_templates (identifier : TrackingIdentifier) (p : String)
    (h : identifier.URIPath = .ok p) :
    (∀ dispatch, (retrackTracking dispatch identifier).2 =
      [⟨"POST", "/trackings" ++ p ++ "/retrack", .noQuery, .noBody⟩]) ∧
    (∀ dispatch status, (markTrackingAsCompleted dispatch identifier status).2 =
      [⟨"POST", "/trackings" ++ p ++ "/mark-as-completed", .noQuery,
        .ofMarkAsCompleted ⟨status⟩⟩]) ∧
    (∀ dispatchN param data, param.identifier = identifier →
      (AddNotification dispatchN param data).2 =
        [⟨"POST", "/trackings" ++ p ++ "/notifications/add", .noQuery,
          .ofNotification data⟩]) := by
  refine ⟨?_, ?_, ?_⟩
  · intro dispatch
    simp [retrackTracking, h]
  · intro dispatch status
    simp [markTrackingAsCompleted, h]
  · intro dispatchN param data hp
    have hurl : BuildTrackingURL param "notifications" "add" =
        .ok ("/trackings" ++ p ++ "/notifications/add") := by
      simp [BuildTrackingURL, hp, h, String.append_assoc,
        show ("/notifications" ++ "/add" : String) = "/notifications/add" from rfl]
    simp [AddNotification, hurl]
    cases dispatchN ⟨"POST", "/trackings" ++ p ++ "/notifications/add", .noQuery,
      .ofNotification data⟩ with
    | mk env err => cases err <;> simp

/-- Concrete witness for C8: the identifier `abc`. -/
theorem C8_fixed_path_templates_witness :
    (retrackTracking (fun _ => ({}, none)) (.trackingID "abc")).2 =
      [⟨"POST", "/trackings/abc/retrack", .noQuery, .noBody⟩] :=
  (C8_fixed_path_templates (.trackingID "abc") "/abc" rfl).1 (fun _ => ({}, none))

/-- Claim C9: `CreateTracking` with an empty tracking number returns the zero
`Tracking`, the `errMissingTrackingNumber` error (whose text is
"tracking number is empty and must be provided"), and issues no HTTP call,
for every dispatcher. -/
theorem C9_create_tracking_empty_number (dispatch : TrackingDispatcher)
    (params : CreateTrackingParams) (h : params.TrackingNumber = "") :
    createTracking dispatch params =
      ((Tracking.zero, some (.new errMissingTrackingNumber)), []) ∧
    (GoError.new errMissingTrackingNumber).message =
      "tracking number is empty and must be provided" := by
  refine ⟨by simp [createTracking, h], rfl⟩

/-- Concrete witness for C9: the zero `CreateTrackingParams`. -/
theorem C9_create_tracking_empty_number_witness :
    createTracking (fun _ => ({}, none)) {} =
      ((Tracking.zero, some (.new errMissingTrackingNumber)), []) ∧
    (GoError.new errMissingTrackingNumber).message =
      "tracking number is empty and must be provided" :=
  C9_create_tracking_empty_number (fun _ => ({}, none)) {} rfl

/-- Claim C10: every operation whose identifier resolution fails returns the
zero value of its result type alongside the error — `Tracking{}` for the five
tracking operations, `Data{}` for `AddNotification` when its URL building
fails. -/
theorem C10_zero_value_on_error (identifier : TrackingIdentifier) (e : GoError)
    (h : identifier.URIPath = .error e) :
    (∀ dispatch gparams uparams status,
      (deleteTracking dispatch identifier).1 =
        (Tracking.zero, some (.wrap "error deleting tracking" e)) ∧
      (getTracking dispatch identifier gparams).1 =
        (Tracking.zero, some (.wrap "error getting tracking" e)) ∧
      (updateTracking dispatch identifier uparams).1 =
        (Tracking.zero, some (.wrap "error updating tracking" e)) ∧
      (retrackTracking dispatch identifier).1 =
        (Tracking.zero, some (.wrap "error retracking" e)) ∧
      (markTrackingAsCompleted dispatch identifier status).1 =
        (Tracking.zero, some (.wrap "error marking tracking as completed" e))) ∧
    (∀ dispatchN param data e', BuildTrackingURL param "notifications" "add" = .error e' →
      (AddNotification dispatchN param data).1 = (NotificationData.zero, some e')) := by
  constructor
  · intro dispatch gparams uparams status
    refine ⟨?_, ?_, ?_, ?_, ?_⟩ <;>
      simp [deleteTracking, getTracking, updateTracking, retrackTracking,
        markTrackingAsCompleted, h]
  · intro dispatchN param data e' h'
    simp [AddNotification, h']

/-- Concrete witness for C10: the empty `TrackingID` and `DeleteTracking`. -/
theorem C10_zero_value_on_error_witness :
    ((deleteTracking (fun _ => ({}, none)) (.trackingID "")).1 =
      (Tracking.zero, some (.wrap "error deleting tracking" (.new errMissingTrackingID)))) :=
  ((C10_zero_value_on_error (.trackingID "") (.new errMissingTrackingID) rfl).1
    (fun _ => ({}, none)) {} {} "DELIVERED").1

end Aftership
